import Mathlib

/-!
Verification of the IPv4 network layer of the trippy path-tracing engine
(crates/trippy-core/src/net/ipv4.rs), by a shallow embedding into Lean.

Packets are modelled as lists of byte values (`List Nat`, each entry a value
below 256).  The packet codecs (the trippy-packet crate: byte-offset getters
and setters, buffer size checks and the Internet checksum) are not part of
the sources under verification, so they are modelled from the specification
of the wire formats; the dispatch and receive functions are translated
directly from ipv4.rs.

Effects are made explicit: the single `send_to` call of a dispatcher is its
return value (bytes, destination address and port), and the single `read`
call of the receiver is an input (`ReadResult`).  Fallible operations return
`Except Err`.
-/

/-- Read the byte at index `i`, defaulting to 0 (all modelled buffers are
zero-initialised, matching the zeroed stack buffers in the source). -/
def getByte : List Nat → Nat → Nat
  | [], _ => 0
  | a :: _, 0 => a
  | _ :: l, i + 1 => getByte l i

/-- Read a big-endian 16-bit value at byte offset `i`. -/
def get16 (b : List Nat) (i : Nat) : Nat := getByte b i * 256 + getByte b (i + 1)

/-- Big-endian byte pair of a 16-bit value (`u16::to_be_bytes`). -/
def be16 (n : Nat) : List Nat := [n / 256 % 256, n % 256]

/-- Overwrite the big-endian 16-bit field at byte offset `i`. -/
def set16 (b : List Nat) (i v : Nat) : List Nat := b.take i ++ be16 v ++ b.drop (i + 2)

/-- Sum of the big-endian 16-bit words of a byte list, the packet padded
with a zero byte when its length is odd. -/
def wordSum : List Nat → Nat
  | [] => 0
  | [a] => a * 256
  | a :: b :: rest => a * 256 + b + wordSum rest

/-- One step-bounded one's-complement fold: add the end-around carry back
until the value fits in 16 bits or the fuel runs out. -/
def foldSumAux : Nat → Nat → Nat
  | 0, n => n
  | fuel + 1, n => if n < 65536 then n else foldSumAux fuel (n % 65536 + n / 65536)

/-- One's-complement fold of a sum into 16 bits: the end-around carry is
added back until the value fits.  Each step strictly decreases the value,
so the value itself bounds the number of steps. -/
def foldSum (n : Nat) : Nat := foldSumAux n n

/-- Modelled from the spec: the Internet checksum is the one's-complement
of the folded one's-complement 16-bit sum over the relevant bytes. -/
def inetChecksum (b : List Nat) : Nat := 65535 - foldSum (wordSum b)

/-- An IPv4 address as four octets. -/
structure Ipv4Addr where
  o1 : Nat
  o2 : Nat
  o3 : Nat
  o4 : Nat
deriving DecidableEq, Repr

/-- The four bytes of an address in network order. -/
def addrBytes (a : Ipv4Addr) : List Nat := [a.o1, a.o2, a.o3, a.o4]

/-- The tracing protocol (crate::Protocol). -/
inductive Protocol where
  | icmp
  | udp
  | tcp
deriving DecidableEq, Repr

/-- ICMP extension parse mode (crate::config::IcmpExtensionParseMode). -/
inductive IcmpExtensionParseMode where
  | enabled
  | disabled
deriving DecidableEq, Repr

/-- Privilege mode (crate::PrivilegeMode). -/
inductive PrivilegeMode where
  | privileged
  | unprivileged
deriving DecidableEq, Repr

/-- Platform policy for the IPv4 total_length and flags_and_fragment_offset
fields (crate::net::platform::Ipv4ByteOrder). -/
inductive Ipv4ByteOrder where
  | network
  | host
deriving DecidableEq, Repr

/-- Modelled from the spec: adjust_length is the identity on network-order
platforms and a 16-bit byte swap on host-order platforms. -/
def Ipv4ByteOrder.adjust_length : Ipv4ByteOrder → Nat → Nat
  | .network, v => v
  | .host, v => v % 256 * 256 + v / 256 % 256

/-- The error kinds of crate::error::Error that this layer can produce.
Packet-codec failures of every kind are collapsed into `packetError`,
modelling the From conversion of trippy_packet errors. -/
inductive Err where
  | invalidPacketSize (n : Nat)
  | packetError
  | ioError (kind : Nat)
  | missingAddr
deriving DecidableEq, Repr

/-- A probe (crate::probe::Probe).  The two flag bits of the Flags bitset
are modelled as booleans; round_id and sent_at play no part in dispatch or
receive and are omitted. -/
structure Probe where
  sequence : Nat
  identifier : Nat
  src_port : Nat
  dest_port : Nat
  ttl : Nat
  paris_checksum : Bool
  dublin_ipv6_payload_length : Bool
deriving DecidableEq, Repr

/-- The single send_to call a dispatcher performs: the bytes handed to the
socket and the remote address and port. -/
structure SendTo where
  bytes : List Nat
  addr : Ipv4Addr
  port : Nat
deriving DecidableEq, Repr

/-- Modelled from the spec: the ICMPv4 checksum is the Internet checksum
over the entire ICMP message with the checksum field zeroed
(trippy_packet::checksum::icmp_ipv4_checksum). -/
def icmp_ipv4_checksum (b : List Nat) : Nat := inetChecksum b

/-- Modelled from the spec: the UDP/IPv4 pseudo-header
src_addr, dest_addr, zero, protocol 17, udp_length. -/
def pseudoHeader (src dest : Ipv4Addr) (len : Nat) : List Nat :=
  addrBytes src ++ addrBytes dest ++ [0, 17] ++ be16 len

/-- Modelled from the spec: the UDP/IPv4 checksum is the Internet checksum
over the pseudo-header concatenated with the UDP message, the checksum
field zeroed (trippy_packet::checksum::udp_ipv4_checksum). -/
def udp_ipv4_checksum (b : List Nat) (src dest : Ipv4Addr) : Nat :=
  inetChecksum (pseudoHeader src dest b.length ++ b)

/-- Create an ICMP EchoRequest packet (make_echo_request_icmp_packet):
type 8, code 0, identifier, sequence, payload_size bytes of the payload
pattern, and the ICMPv4 checksum computed over the packet with the
checksum field still zero. -/
def make_echo_request_icmp_packet (identifier sequence payload_size payload_pattern : Nat) :
    List Nat :=
  let payload := List.replicate payload_size payload_pattern
  let zeroed := [8, 0] ++ be16 0 ++ be16 identifier ++ be16 sequence ++ payload
  [8, 0] ++ be16 (icmp_ipv4_checksum zeroed) ++ be16 identifier ++ be16 sequence ++ payload

/-- Create a UDP packet (make_udp_packet): source and destination ports,
length 8 + payload length, payload, and the UDP/IPv4 checksum computed
over the packet with the checksum field still zero. -/
def make_udp_packet (src_addr dest_addr : Ipv4Addr) (src_port dest_port : Nat)
    (payload : List Nat) : List Nat :=
  let len := 8 + payload.length
  let zeroed := be16 src_port ++ be16 dest_port ++ be16 len ++ be16 0 ++ payload
  be16 src_port ++ be16 dest_port ++ be16 len ++
    be16 (udp_ipv4_checksum zeroed src_addr dest_addr) ++ payload

/-- Create an IPv4 packet (make_ipv4_packet): version 4, IHL 5, ToS 0,
total_length and the DF flags word written through the platform byte-order
policy, identification, ttl, protocol, source and destination, payload.
The header checksum field is never written and stays zero (the kernel
fills it in when IP_HDRINCL is set). -/
def make_ipv4_packet (ipv4_byte_order : Ipv4ByteOrder) (protocol : Nat)
    (src_addr dest_addr : Ipv4Addr) (ttl identification : Nat)
    (payload : List Nat) : List Nat :=
  let total := 20 + payload.length
  [0x45, 0] ++ be16 (ipv4_byte_order.adjust_length total) ++ be16 identification ++
    be16 (ipv4_byte_order.adjust_length 0x4000) ++ [ttl, protocol] ++ be16 0 ++
    addrBytes src_addr ++ addrBytes dest_addr ++ payload

/-- Payload size of an ICMP probe (icmp_payload_size): packet size less the
20-byte IPv4 header and 8-byte ICMP header. -/
def icmp_payload_size (packet_size : Nat) : Nat := packet_size - 8 - 20

/-- Payload size of a UDP probe (udp_payload_size): packet size less the
20-byte IPv4 header and 8-byte UDP header. -/
def udp_payload_size (packet_size : Nat) : Nat := packet_size - 8 - 20

/-- Dispatch an IPv4/ICMP probe (dispatch_icmp_probe): validate
28 <= packet_size <= 1024, build the EchoRequest, wrap it in IPv4 with
identification 0 and protocol 1, and send to (dest_addr, 0). -/
def dispatch_icmp_probe (probe : Probe) (src_addr dest_addr : Ipv4Addr)
    (packet_size payload_pattern : Nat) (ipv4_byte_order : Ipv4ByteOrder) :
    Except Err SendTo :=
  if 28 ≤ packet_size ∧ packet_size ≤ 1024 then
    let echo_request := make_echo_request_icmp_packet probe.identifier probe.sequence
      (icmp_payload_size packet_size) payload_pattern
    let ipv4 := make_ipv4_packet ipv4_byte_order 1 src_addr dest_addr probe.ttl 0 echo_request
    .ok ⟨ipv4, dest_addr, 0⟩
  else
    .error (.invalidPacketSize packet_size)

/-- Replace the payload region of a UDP packet, starting at byte 8, with
the given bytes (UdpPacket::set_payload). -/
def udpSetPayload (b payload : List Nat) : List Nat :=
  b.take 8 ++ payload ++ b.drop (8 + payload.length)

/-- Dispatch a UDP probe over a raw socket with IP_HDRINCL
(dispatch_udp_probe_raw).  With PARIS_CHECKSUM set the payload is the
sequence as two big-endian bytes, and after the checksum is computed the
checksum field and the two payload bytes are swapped.  The IPv4
identification field carries the probe identifier. -/
def dispatch_udp_probe_raw (probe : Probe) (src_addr dest_addr : Ipv4Addr)
    (payload : List Nat) (ipv4_byte_order : Ipv4ByteOrder) : Except Err SendTo :=
  let payload1 := if probe.paris_checksum then be16 probe.sequence else payload
  let udp := make_udp_packet src_addr dest_addr probe.src_port probe.dest_port payload1
  let udp1 :=
    if probe.paris_checksum then
      let checksum := get16 udp 6
      let payload_word := get16 (udp.drop 8) 0
      udpSetPayload (set16 udp 6 payload_word) (be16 checksum)
    else udp
  let ipv4 := make_ipv4_packet ipv4_byte_order 17 src_addr dest_addr probe.ttl
    probe.identifier udp1
  .ok ⟨ipv4, dest_addr, probe.dest_port⟩

/-- Dispatch a UDP probe over a fresh datagram socket
(dispatch_udp_probe_non_raw): the kernel builds the headers, only the
payload bytes are handed to send_to.  The bind and set_ttl calls carry no
bytes and are not modelled. -/
def dispatch_udp_probe_non_raw (probe : Probe) (dest_addr : Ipv4Addr)
    (payload : List Nat) : Except Err SendTo :=
  .ok ⟨payload, dest_addr, probe.dest_port⟩

/-- Dispatch a UDP probe (dispatch_udp_probe): validate
28 <= packet_size <= 1024, build the pattern payload, and dispatch raw or
non-raw according to the privilege mode. -/
def dispatch_udp_probe (probe : Probe) (src_addr dest_addr : Ipv4Addr)
    (privilege_mode : PrivilegeMode) (packet_size payload_pattern : Nat)
    (ipv4_byte_order : Ipv4ByteOrder) : Except Err SendTo :=
  if 28 ≤ packet_size ∧ packet_size ≤ 1024 then
    let payload := List.replicate (udp_payload_size packet_size) payload_pattern
    match privilege_mode with
    | .privileged =>
        dispatch_udp_probe_raw probe src_addr dest_addr payload ipv4_byte_order
    | .unprivileged =>
        dispatch_udp_probe_non_raw probe dest_addr payload
  else
    .error (.invalidPacketSize packet_size)

/-- Modelled from the spec: wrap a buffer as an IPv4 view
(Ipv4Packet::new_view); fails when the buffer is below the 20-byte
minimum packet size. -/
def ipv4_new_view (b : List Nat) : Except Err (List Nat) :=
  if b.length < 20 then .error .packetError else .ok b

/-- Modelled from the spec: wrap a buffer as a generic ICMP view
(IcmpPacket::new_view); fails below the 8-byte minimum. -/
def icmp_new_view (b : List Nat) : Except Err (List Nat) :=
  if b.length < 8 then .error .packetError else .ok b

/-- Modelled from the spec: wrap a buffer as a UDP view
(UdpPacket::new_view); fails below the 8-byte minimum. -/
def udp_new_view (b : List Nat) : Except Err (List Nat) :=
  if b.length < 8 then .error .packetError else .ok b

/-- Modelled from the spec: wrap a buffer as a TCP view
(TcpPacket::new_view); fails below the 20-byte minimum. -/
def tcp_new_view (b : List Nat) : Except Err (List Nat) :=
  if b.length < 20 then .error .packetError else .ok b

/-- Modelled from the spec: wrap a buffer as an ICMP TimeExceeded,
DestinationUnreachable, EchoRequest or EchoReply view; each has an 8-byte
minimum packet size. -/
def icmp_sub_new_view (b : List Nat) : Except Err (List Nat) :=
  if b.length < 8 then .error .packetError else .ok b

/-- The payload of an IPv4 view: the slice after the fixed 20-byte header. -/
def ipv4_payload (b : List Nat) : List Nat := b.drop 20

/-- The source address of an IPv4 view, bytes 12 to 15. -/
def ipv4_get_source (b : List Nat) : Ipv4Addr :=
  ⟨getByte b 12, getByte b 13, getByte b 14, getByte b 15⟩

/-- The destination address of an IPv4 view, bytes 16 to 19. -/
def ipv4_get_destination (b : List Nat) : Ipv4Addr :=
  ⟨getByte b 16, getByte b 17, getByte b 18, getByte b 19⟩

/-- The protocol byte of an IPv4 view, byte 9. -/
def ipv4_get_protocol (b : List Nat) : Nat := getByte b 9

/-- The identification field of an IPv4 view, bytes 4 and 5. -/
def ipv4_get_identification (b : List Nat) : Nat := get16 b 4

/-- Modelled from the spec: split an ICMP error message (TimeExceeded or
DestinationUnreachable) into the embedded original datagram and the
optional RFC 4884 extension bytes.  When the RFC 4884 length field (byte 4
of the message) is non-zero the original datagram is its value times 4
bytes; otherwise, when the body after the 8-byte header reaches 128 bytes,
the original datagram is the first 128 bytes and the rest is the
extension; otherwise the body is flat and there is no extension. -/
def extensionSplit (b : List Nat) : List Nat × Option (List Nat) :=
  let body := b.drop 8
  let len := getByte b 4
  if len ≠ 0 then
    (body.take (len * 4),
      if (body.drop (len * 4)).isEmpty then none else some (body.drop (len * 4)))
  else if 128 ≤ body.length then
    (body.take 128, if (body.drop 128).isEmpty then none else some (body.drop 128))
  else (body, none)

/-- The embedded original datagram of a TimeExceeded or
DestinationUnreachable view, RFC 4884 aware (payload()). -/
def icmp_error_payload (b : List Nat) : List Nat := (extensionSplit b).1

/-- The raw body of a TimeExceeded view after the 8-byte header
(payload_raw()). -/
def icmp_error_payload_raw (b : List Nat) : List Nat := b.drop 8

/-- The optional RFC 4884 extension bytes of a TimeExceeded or
DestinationUnreachable view (extension()). -/
def icmp_error_extension (b : List Nat) : Option (List Nat) := (extensionSplit b).2

/-- An ICMP extension object list (crate::probe::Extensions).  The
object-level decoding is kept as the raw extension-structure bytes: no
claim inspects the decoded objects. -/
structure Extensions where
  raw : List Nat
deriving DecidableEq, Repr

/-- Modelled from the spec: parse an RFC 4884 extension structure
(Extensions::try_from).  The 4-byte header must be present and carry
version 2; a checksum mismatch yields an empty extension list without
failing the parse. -/
def extensions_try_from (b : List Nat) : Except Err Extensions :=
  if b.length < 4 then .error .packetError
  else if getByte b 0 / 16 ≠ 2 then .error .packetError
  else if foldSum (wordSum b) ≠ 65535 then .ok ⟨[]⟩
  else .ok ⟨b⟩

/-- The ICMP correlation key (crate::probe::ResponseSeqIcmp). -/
structure ResponseSeqIcmp where
  identifier : Nat
  sequence : Nat
deriving DecidableEq, Repr

/-- The UDP correlation key (crate::probe::ResponseSeqUdp). -/
structure ResponseSeqUdp where
  identifier : Nat
  dest_addr : Ipv4Addr
  src_port : Nat
  dest_port : Nat
  checksum : Nat
  payload_len : Nat
  has_magic : Bool
deriving DecidableEq, Repr

/-- The TCP correlation key (crate::probe::ResponseSeqTcp). -/
structure ResponseSeqTcp where
  dest_addr : Ipv4Addr
  src_port : Nat
  dest_port : Nat
deriving DecidableEq, Repr

/-- The correlation key reconstructed from a reply
(crate::probe::ResponseSeq). -/
inductive ResponseSeq where
  | icmp (s : ResponseSeqIcmp)
  | udp (s : ResponseSeqUdp)
  | tcp (s : ResponseSeqTcp)
deriving DecidableEq, Repr

/-- The data carried by every response (crate::probe::ResponseData); the
wall-clock receive instant is not modelled. -/
structure ResponseData where
  addr : Ipv4Addr
  resp_seq : ResponseSeq
deriving DecidableEq, Repr

/-- A typed response (crate::probe::Response). -/
inductive Response where
  | timeExceeded (data : ResponseData) (code : Nat) (ext : Option Extensions)
  | destinationUnreachable (data : ResponseData) (code : Nat) (ext : Option Extensions)
  | echoReply (data : ResponseData) (code : Nat)
  | tcpReply (data : ResponseData)
  | tcpRefused (data : ResponseData)
deriving DecidableEq, Repr

/-- View the embedded original datagram as an ICMP EchoRequest
(extract_echo_request). -/
def extract_echo_request (ipv4 : List Nat) : Except Err (List Nat) :=
  icmp_sub_new_view (ipv4_payload ipv4)

/-- Extract the ports, checksum, identification and payload length from
the embedded original UDP datagram (extract_udp_packet).  The payload
length is the UDP length field less 8, an unchecked u16 subtraction in
the source, modelled as wrapping arithmetic modulo 2^16. -/
def extract_udp_packet (ipv4 : List Nat) : Except Err (Nat × Nat × Nat × Nat × Nat) :=
  match udp_new_view (ipv4_payload ipv4) with
  | .error e => .error e
  | .ok nested =>
      .ok (get16 nested 0, get16 nested 2, get16 nested 6,
        ipv4_get_identification ipv4,
        (get16 nested 4 + 65536 - 8) % 65536)

/-- Extract the ports from the embedded original TCP datagram
(extract_tcp_packet).  A body shorter than the 20-byte minimum TCP header
is copied into a zero-padded 20-byte buffer first. -/
def extract_tcp_packet (ipv4 : List Nat) : Except Err (Nat × Nat) :=
  if (ipv4_payload ipv4).length < 20 then
    match tcp_new_view
        (ipv4_payload ipv4 ++ List.replicate (20 - (ipv4_payload ipv4).length) 0) with
    | .error e => .error e
    | .ok t => .ok (get16 t 0, get16 t 2)
  else
    match tcp_new_view (ipv4_payload ipv4) with
    | .error e => .error e
    | .ok t => .ok (get16 t 0, get16 t 2)

/-- Reconstruct the correlation key from the embedded original datagram
(extract_probe_resp_seq): the embedded L4 protocol must equal the tracing
protocol, otherwise None. -/
def extract_probe_resp_seq (ipv4 : List Nat) (protocol : Protocol) :
    Except Err (Option ResponseSeq) :=
  match protocol, ipv4_get_protocol ipv4 with
  | .icmp, 1 =>
      match extract_echo_request ipv4 with
      | .error e => .error e
      | .ok echo_request =>
          .ok (some (.icmp ⟨get16 echo_request 4, get16 echo_request 6⟩))
  | .udp, 17 =>
      match extract_udp_packet ipv4 with
      | .error e => .error e
      | .ok (src_port, dest_port, checksum, identifier, payload_length) =>
          .ok (some (.udp ⟨identifier, ipv4_get_destination ipv4, src_port,
            dest_port, checksum, payload_length, false⟩))
  | .tcp, 6 =>
      match extract_tcp_packet ipv4 with
      | .error e => .error e
      | .ok (src_port, dest_port) =>
          .ok (some (.tcp ⟨ipv4_get_destination ipv4, src_port, dest_port⟩))
  | _, _ => .ok none

/-- Map an optional extension byte slice through the extension structure
parse, propagating its failure (the .map(try_from).transpose()? step). -/
def transposeExt : Option (List Nat) → Except Err (Option Extensions)
  | none => .ok none
  | some eb =>
      match extensions_try_from eb with
      | .error e => .error e
      | .ok x => .ok (some x)

/-- Parse one received ICMP datagram into at most one response
(extract_probe_resp).  Dispatches on the ICMP type byte: TimeExceeded (11)
only for code 0, DestinationUnreachable (3) for every code, EchoReply (0)
only when tracing ICMP; every other type yields None. -/
def extract_probe_resp (protocol : Protocol) (icmp_extension_mode : IcmpExtensionParseMode)
    (ipv4 : List Nat) : Except Err (Option Response) :=
  match icmp_new_view (ipv4_payload ipv4) with
  | .error e => .error e
  | .ok icmp_v4 =>
      if getByte icmp_v4 0 = 11 then
        if getByte icmp_v4 1 = 0 then
          match icmp_sub_new_view icmp_v4 with
          | .error e => .error e
          | .ok packet =>
              match (match icmp_extension_mode with
                     | .enabled => ipv4_new_view (icmp_error_payload packet)
                     | .disabled => ipv4_new_view (icmp_error_payload_raw packet)) with
              | .error e => .error e
              | .ok nested_ipv4 =>
                  match (match icmp_extension_mode with
                         | .enabled => transposeExt (icmp_error_extension packet)
                         | .disabled => .ok none) with
                  | .error e => .error e
                  | .ok ext =>
                      match extract_probe_resp_seq nested_ipv4 protocol with
                      | .error e => .error e
                      | .ok none => .ok none
                      | .ok (some resp_seq) =>
                          .ok (some (.timeExceeded ⟨ipv4_get_source ipv4, resp_seq⟩
                            (getByte icmp_v4 1) ext))
        else .ok none
      else if getByte icmp_v4 0 = 3 then
        match icmp_sub_new_view icmp_v4 with
        | .error e => .error e
        | .ok packet =>
            match ipv4_new_view (icmp_error_payload packet) with
            | .error e => .error e
            | .ok nested_ipv4 =>
                match (match icmp_extension_mode with
                       | .enabled => transposeExt (icmp_error_extension packet)
                       | .disabled => .ok none) with
                | .error e => .error e
                | .ok ext =>
                    match extract_probe_resp_seq nested_ipv4 protocol with
                    | .error e => .error e
                    | .ok none => .ok none
                    | .ok (some resp_seq) =>
                        .ok (some (.destinationUnreachable ⟨ipv4_get_source ipv4, resp_seq⟩
                          (getByte icmp_v4 1) ext))
      else if getByte icmp_v4 0 = 0 then
        match protocol with
        | .icmp =>
            match icmp_sub_new_view icmp_v4 with
            | .error e => .error e
            | .ok packet =>
                .ok (some (.echoReply
                  ⟨ipv4_get_source ipv4, .icmp ⟨get16 packet 4, get16 packet 6⟩⟩
                  (getByte icmp_v4 1)))
        | .udp => .ok none
        | .tcp => .ok none
      else .ok none

/-- The outcome of the single non-blocking read on the ICMP recv socket. -/
inductive ReadResult where
  | bytes (b : List Nat)
  | wouldBlock
  | err (kind : Nat)
deriving DecidableEq, Repr

/-- Receive one ICMP datagram (recv_icmp_probe): WouldBlock maps to no
response, any other I/O error is propagated, and a successfully read
datagram is viewed as IPv4 and parsed. -/
def recv_icmp_probe (read : ReadResult) (protocol : Protocol)
    (icmp_extension_mode : IcmpExtensionParseMode) : Except Err (Option Response) :=
  match read with
  | .bytes b =>
      match ipv4_new_view b with
      | .error e => .error e
      | .ok ipv4 => extract_probe_resp protocol icmp_extension_mode ipv4
  | .wouldBlock => .ok none
  | .err kind => .error (.ioError kind)

/-- A buffer's Internet checksum verifies: the one's-complement sum over
all of its 16-bit words, the stored checksum field included, folds to
0xFFFF. -/
def checksumValid (b : List Nat) : Prop := foldSum (wordSum b) = 65535

instance (b : List Nat) : Decidable (checksumValid b) :=
  inferInstanceAs (Decidable (foldSum (wordSum b) = 65535))

/-- Modelled from the spec: the IANA protocol numbers the codecs assign to
the three tracing protocols (IpProtocol): ICMP 1, UDP 17, TCP 6. -/
def protocolNumber : Protocol → Nat
  | .icmp => 1
  | .udp => 17
  | .tcp => 6

deriving instance DecidableEq for Except

theorem foldSumAux_lt (fuel : Nat) : ∀ n, n ≤ fuel ∨ n < 65536 → foldSumAux fuel n < 65536 := by
  induction fuel with
  | zero => intro n h; simp only [foldSumAux]; omega
  | succ fuel ih =>
      intro n h
      simp only [foldSumAux]
      split
      · omega
      · exact ih _ (by omega)

theorem foldSum_lt (n : Nat) : foldSum n < 65536 :=
  foldSumAux_lt n n (Or.inl le_rfl)

theorem foldSumAux_pos (fuel : Nat) : ∀ n, 0 < n → 0 < foldSumAux fuel n := by
  induction fuel with
  | zero => intro n h; simpa [foldSumAux] using h
  | succ fuel ih =>
      intro n h
      simp only [foldSumAux]
      split
      · omega
      · exact ih _ (by omega)

theorem foldSum_pos (n : Nat) (hn : 0 < n) : 0 < foldSum n :=
  foldSumAux_pos n n hn

theorem foldSumAux_le (fuel : Nat) : ∀ n, foldSumAux fuel n ≤ n := by
  induction fuel with
  | zero => intro n; simp [foldSumAux]
  | succ fuel ih =>
      intro n
      simp only [foldSumAux]
      split
      · omega
      · exact le_trans (ih _) (by omega)

theorem foldSum_le (n : Nat) : foldSum n ≤ n :=
  foldSumAux_le n n

theorem foldSumAux_mod (fuel : Nat) : ∀ n, foldSumAux fuel n % 65535 = n % 65535 := by
  induction fuel with
  | zero => intro n; simp [foldSumAux]
  | succ fuel ih =>
      intro n
      simp only [foldSumAux]
      split
      · rfl
      · rw [ih]; omega

theorem foldSum_mod (n : Nat) : foldSum n % 65535 = n % 65535 :=
  foldSumAux_mod n n

/-- Checksum verification always succeeds: adding the computed complement
to the running sum folds to 0xFFFF. -/
theorem foldSum_add_compl (S : Nat) : foldSum (S + (65535 - foldSum S)) = 65535 := by
  have h1 := foldSum_lt S
  have h2 := foldSum_mod S
  have h3 := foldSum_le S
  have h4 : 0 < S + (65535 - foldSum S) := by
    generalize hF : foldSum S = F at h1 h3
    omega
  have h5 := foldSum_mod (S + (65535 - foldSum S))
  have h6 := foldSum_lt (S + (65535 - foldSum S))
  have h7 := foldSum_pos _ h4
  generalize hG : foldSum (S + (65535 - foldSum S)) = G at h5 h6 h7 ⊢
  generalize hF : foldSum S = F at h1 h2 h5 ⊢
  omega

theorem wordSum_append (l₁ l₂ : List Nat) (h : l₁.length % 2 = 0) :
    wordSum (l₁ ++ l₂) = wordSum l₁ + wordSum l₂ := by
  induction l₁ using wordSum.induct with
  | case1 => simp [wordSum]
  | case2 a => simp at h
  | case3 a b rest ih =>
      have h2 : rest.length % 2 = 0 := by
        simp only [List.length_cons] at h; omega
      simp only [List.cons_append, wordSum, List.append_eq]
      rw [ih h2]
      omega

theorem wordSum_be16_append (n : Nat) (l : List Nat) :
    wordSum (be16 n ++ l) = n / 256 % 256 * 256 + n % 256 + wordSum l := by
  simp [be16, wordSum]

theorem be16_wordSum (n : Nat) (h : n < 65536) (l : List Nat) :
    wordSum (be16 n ++ l) = n + wordSum l := by
  rw [wordSum_be16_append]; omega


theorem getByte_append_lt (l₁ l₂ : List Nat) (i : Nat) (h : i < l₁.length) :
    getByte (l₁ ++ l₂) i = getByte l₁ i := by
  induction l₁ generalizing i with
  | nil => simp at h
  | cons a l ih =>
      cases i with
      | zero => rfl
      | succ i => simpa [getByte] using ih i (by simpa using h)

/-- Writing the Internet checksum of a zero-slot buffer into that slot
makes the whole buffer verify, for any even-offset checksum slot. -/
theorem checksum_slot_valid (A B : List Nat) (hA : A.length % 2 = 0) :
    checksumValid (A ++ (be16 (inetChecksum (A ++ (be16 0 ++ B))) ++ B)) := by
  unfold checksumValid
  have hC : inetChecksum (A ++ (be16 0 ++ B)) < 65536 := by
    unfold inetChecksum
    have := Nat.sub_le 65535 (foldSum (wordSum (A ++ (be16 0 ++ B))))
    omega
  rw [wordSum_append _ _ hA, be16_wordSum _ hC B]
  have h0 : wordSum (A ++ (be16 0 ++ B)) = wordSum A + wordSum B := by
    rw [wordSum_append _ _ hA, be16_wordSum 0 (by omega) B]
    omega
  unfold inetChecksum
  unfold inetChecksum at h0 hC
  rw [h0] at hC ⊢
  rw [show wordSum A + (65535 - foldSum (wordSum A + wordSum B) + wordSum B) =
    wordSum A + wordSum B + (65535 - foldSum (wordSum A + wordSum B)) from by omega]
  exact foldSum_add_compl (wordSum A + wordSum B)

/-- C4: dispatch_icmp_probe with src 1.2.3.4, dest 5.6.7.8, packet_size 28,
pattern 0x00, identifier 1234, sequence 33000, ttl 10 and Network byte
order passes to send_to exactly the 28 expected bytes, addressed to
5.6.7.8 port 0. -/
theorem dispatch_icmp_probe_scenario_s1 :
    dispatch_icmp_probe ⟨33000, 1234, 0, 0, 10, false, false⟩ ⟨1, 2, 3, 4⟩ ⟨5, 6, 7, 8⟩
        28 0x00 .network =
      .ok ⟨[0x45, 0x00, 0x00, 0x1c, 0x00, 0x00, 0x40, 0x00, 0x0a, 0x01, 0x00, 0x00,
            0x01, 0x02, 0x03, 0x04, 0x05, 0x06, 0x07, 0x08,
            0x08, 0x00, 0x72, 0x45, 0x04, 0xd2, 0x80, 0xe8], ⟨5, 6, 7, 8⟩, 0⟩ := by
  decide

/-- C5: for every packet_size below 28 or above 1024, both
dispatch_icmp_probe and dispatch_udp_probe return InvalidPacketSize and
never reach their send_to call (an error result carries no sent bytes). -/
theorem dispatch_invalid_packet_size (probe : Probe) (src_addr dest_addr : Ipv4Addr)
    (privilege_mode : PrivilegeMode) (packet_size payload_pattern : Nat)
    (ipv4_byte_order : Ipv4ByteOrder) (h : packet_size < 28 ∨ 1024 < packet_size) :
    dispatch_icmp_probe probe src_addr dest_addr packet_size payload_pattern ipv4_byte_order
        = .error (.invalidPacketSize packet_size) ∧
      dispatch_udp_probe probe src_addr dest_addr privilege_mode packet_size payload_pattern
        ipv4_byte_order = .error (.invalidPacketSize packet_size) := by
  constructor
  · unfold dispatch_icmp_probe
    rw [if_neg (by omega)]
  · unfold dispatch_udp_probe
    rw [if_neg (by omega)]

theorem dispatch_invalid_packet_size_witness :
    dispatch_icmp_probe ⟨33000, 1234, 0, 0, 10, false, false⟩ ⟨1, 2, 3, 4⟩ ⟨5, 6, 7, 8⟩
        27 0x00 .network = .error (.invalidPacketSize 27) ∧
      dispatch_udp_probe ⟨33000, 1234, 0, 0, 10, false, false⟩ ⟨1, 2, 3, 4⟩ ⟨5, 6, 7, 8⟩
        .privileged 27 0x00 .network = .error (.invalidPacketSize 27) :=
  dispatch_invalid_packet_size ⟨33000, 1234, 0, 0, 10, false, false⟩ ⟨1, 2, 3, 4⟩
    ⟨5, 6, 7, 8⟩ .privileged 27 0x00 .network (by omega)

/-- C9: for every probe dispatched through privileged (raw) UDP, the IPv4
identification field of the emitted packet equals the probe identifier,
whatever the PARIS_CHECKSUM and DUBLIN_IPV6_PAYLOAD_LENGTH flags are. -/
theorem dispatch_udp_probe_raw_identification (probe : Probe) (src_addr dest_addr : Ipv4Addr)
    (packet_size payload_pattern : Nat) (ipv4_byte_order : Ipv4ByteOrder)
    (hid : probe.identifier < 65536) (h1 : 28 ≤ packet_size) (h2 : packet_size ≤ 1024) :
    ∃ s, dispatch_udp_probe probe src_addr dest_addr .privileged packet_size payload_pattern
        ipv4_byte_order = .ok s ∧ get16 s.bytes 4 = probe.identifier := by
  unfold dispatch_udp_probe
  rw [if_pos ⟨h1, h2⟩]
  refine ⟨_, rfl, ?_⟩
  show probe.identifier / 256 % 256 * 256 + probe.identifier % 256 = probe.identifier
  omega

theorem dispatch_udp_probe_raw_identification_witness :
    ∃ s, dispatch_udp_probe ⟨33000, 33000, 123, 456, 10, false, true⟩ ⟨1, 2, 3, 4⟩
        ⟨5, 6, 7, 8⟩ .privileged 28 0xaa .network = .ok s ∧ get16 s.bytes 4 = 33000 :=
  dispatch_udp_probe_raw_identification ⟨33000, 33000, 123, 456, 10, false, true⟩
    ⟨1, 2, 3, 4⟩ ⟨5, 6, 7, 8⟩ 28 0xaa .network (by decide) (by omega) (by omega)

/-- C6: a received ICMP TimeExceeded message is accepted only with code 0;
for every other code, in particular code 1 (fragment reassembly),
recv_icmp_probe returns None whatever the rest of the datagram holds. -/
theorem recv_icmp_probe_time_exceeded_code_filter (protocol : Protocol)
    (mode : IcmpExtensionParseMode) (b : List Nat)
    (hlen : 20 ≤ b.length) (hicmp : 8 ≤ b.length - 20)
    (htype : getByte (b.drop 20) 0 = 11) (hcode : getByte (b.drop 20) 1 ≠ 0) :
    recv_icmp_probe (.bytes b) protocol mode = .ok none := by
  have h1 : ¬ (b.length < 20) := by omega
  have h2 : ¬ ((List.drop 20 b).length < 8) := by
    rw [List.length_drop]; omega
  simp only [recv_icmp_probe, ipv4_new_view, extract_probe_resp, icmp_new_view,
    ipv4_payload, h1, if_false, h2, htype, if_true, hcode]

theorem recv_icmp_probe_time_exceeded_code_filter_witness :
    recv_icmp_probe
        (.bytes ([0x45, 0, 0, 28, 0, 0, 0x40, 0, 64, 1, 0, 0, 192, 168, 1, 1,
          192, 168, 1, 21, 11, 1, 0, 0, 0, 0, 0, 0])) .udp .enabled = .ok none :=
  recv_icmp_probe_time_exceeded_code_filter .udp .enabled
    [0x45, 0, 0, 28, 0, 0, 0x40, 0, 64, 1, 0, 0, 192, 168, 1, 1,
      192, 168, 1, 21, 11, 1, 0, 0, 0, 0, 0, 0]
    (by decide) (by decide) (by decide) (by decide)

/-- C7: extract_probe_resp_seq yields a correlation key only when the
embedded L4 protocol number matches the tracing protocol, returning None
for every mismatched pair; and an EchoReply message yields a response only
when the tracing protocol is ICMP. -/
theorem extract_probe_resp_seq_protocol_filter (protocol : Protocol)
    (mode : IcmpExtensionParseMode) (emb outer : List Nat) :
    (ipv4_get_protocol emb ≠ protocolNumber protocol →
      extract_probe_resp_seq emb protocol = .ok none) ∧
    (protocol ≠ .icmp → 20 ≤ outer.length → 8 ≤ outer.length - 20 →
      getByte (outer.drop 20) 0 = 0 →
      recv_icmp_probe (.bytes outer) protocol mode = .ok none) := by
  constructor
  · intro hne
    unfold extract_probe_resp_seq
    split
    · rename_i heq
      exact absurd heq (by simpa [protocolNumber] using hne)
    · rename_i heq
      exact absurd heq (by simpa [protocolNumber] using hne)
    · rename_i heq
      exact absurd heq (by simpa [protocolNumber] using hne)
    · rfl
  · intro hp hlen hicmp htype
    have h1 : ¬ (outer.length < 20) := by omega
    have h2 : ¬ ((List.drop 20 outer).length < 8) := by
      rw [List.length_drop]; omega
    cases protocol with
    | icmp => exact absurd rfl hp
    | udp =>
        simp only [recv_icmp_probe, ipv4_new_view, extract_probe_resp, icmp_new_view,
          ipv4_payload, h1, if_false, h2, htype, if_true]
        simp
    | tcp =>
        simp only [recv_icmp_probe, ipv4_new_view, extract_probe_resp, icmp_new_view,
          ipv4_payload, h1, if_false, h2, htype, if_true]
        simp

theorem extract_probe_resp_seq_protocol_filter_witness :
    (ipv4_get_protocol [0x45, 0, 0, 28, 0, 0, 0x40, 0, 64, 1, 0, 0, 192, 168, 1, 21,
        142, 250, 204, 142, 8, 0, 0, 0, 0x75, 0xd7, 0x81, 0x17] ≠ protocolNumber .udp →
      extract_probe_resp_seq [0x45, 0, 0, 28, 0, 0, 0x40, 0, 64, 1, 0, 0, 192, 168, 1, 21,
        142, 250, 204, 142, 8, 0, 0, 0, 0x75, 0xd7, 0x81, 0x17] .udp = .ok none) ∧
    (Protocol.udp ≠ .icmp → 20 ≤ ([0x45, 0, 0, 28, 0, 0, 0, 0, 64, 1, 0, 0,
        192, 168, 1, 1, 192, 168, 1, 21, 0, 0, 0x09, 0x0f, 0x75, 0xd7, 0x81, 0x19] :
        List Nat).length →
      8 ≤ ([0x45, 0, 0, 28, 0, 0, 0, 0, 64, 1, 0, 0, 192, 168, 1, 1,
        192, 168, 1, 21, 0, 0, 0x09, 0x0f, 0x75, 0xd7, 0x81, 0x19] : List Nat).length - 20 →
      getByte (([0x45, 0, 0, 28, 0, 0, 0, 0, 64, 1, 0, 0, 192, 168, 1, 1,
        192, 168, 1, 21, 0, 0, 0x09, 0x0f, 0x75, 0xd7, 0x81, 0x19] : List Nat).drop 20) 0 = 0 →
      recv_icmp_probe (.bytes [0x45, 0, 0, 28, 0, 0, 0, 0, 64, 1, 0, 0, 192, 168, 1, 1,
        192, 168, 1, 21, 0, 0, 0x09, 0x0f, 0x75, 0xd7, 0x81, 0x19]) .udp .enabled = .ok none) :=
  extract_probe_resp_seq_protocol_filter .udp .enabled
    [0x45, 0, 0, 28, 0, 0, 0x40, 0, 64, 1, 0, 0, 192, 168, 1, 21,
      142, 250, 204, 142, 8, 0, 0, 0, 0x75, 0xd7, 0x81, 0x17]
    [0x45, 0, 0, 28, 0, 0, 0, 0, 64, 1, 0, 0, 192, 168, 1, 1,
      192, 168, 1, 21, 0, 0, 0x09, 0x0f, 0x75, 0xd7, 0x81, 0x19]

/-- C8: when the embedded original TCP segment is truncated below the
20-byte minimum TCP header (down to the 8 echoed bytes), port extraction
pads the available bytes with zeros and still reads the source and
destination ports from byte offsets 0 to 3. -/
theorem extract_tcp_packet_truncated (emb : List Nat)
    (h8 : 8 ≤ (emb.drop 20).length) (h20 : (emb.drop 20).length < 20) :
    extract_tcp_packet emb = .ok (get16 (emb.drop 20) 0, get16 (emb.drop 20) 2) := by
  have hb : ¬ ((List.drop 20 emb ++ List.replicate (20 - (List.drop 20 emb).length) 0).length
      < 20) := by
    rw [List.length_append, List.length_replicate]; omega
  simp only [extract_tcp_packet, ipv4_payload, tcp_new_view, h20, if_true, hb, if_false]
  unfold get16
  rw [getByte_append_lt _ _ 0 (by omega), getByte_append_lt _ _ 1 (by omega),
    getByte_append_lt _ _ 2 (by omega), getByte_append_lt _ _ 3 (by omega)]

theorem extract_tcp_packet_truncated_witness :
    extract_tcp_packet [0x45, 0x20, 0, 0x40, 0, 0, 0, 0, 1, 6, 0x5b, 0xf2,
        192, 168, 1, 21, 142, 250, 204, 142, 0x80, 0xfd, 0x00, 0x50,
        0x61, 0xf2, 0x4d, 0x4a] =
      .ok (get16 (([0x45, 0x20, 0, 0x40, 0, 0, 0, 0, 1, 6, 0x5b, 0xf2,
          192, 168, 1, 21, 142, 250, 204, 142, 0x80, 0xfd, 0x00, 0x50,
          0x61, 0xf2, 0x4d, 0x4a] : List Nat).drop 20) 0,
        get16 (([0x45, 0x20, 0, 0x40, 0, 0, 0, 0, 1, 6, 0x5b, 0xf2,
          192, 168, 1, 21, 142, 250, 204, 142, 0x80, 0xfd, 0x00, 0x50,
          0x61, 0xf2, 0x4d, 0x4a] : List Nat).drop 20) 2) :=
  extract_tcp_packet_truncated [0x45, 0x20, 0, 0x40, 0, 0, 0, 0, 1, 6, 0x5b, 0xf2,
    192, 168, 1, 21, 142, 250, 204, 142, 0x80, 0xfd, 0x00, 0x50, 0x61, 0xf2, 0x4d, 0x4a]
    (by decide) (by decide)

/-- C10 counterexample: an embedded IPv4/UDP original datagram whose UDP
length field is 0 (below 8) reaches the payload_len computation, which
wraps to 65528 instead of the claimed in-range length minus 8; the length
field is attacker-controlled and not validated. -/
theorem extract_udp_packet_underflow_counterexample :
    get16 (([0x45, 0, 0, 28, 0x12, 0x34, 0x40, 0, 64, 17, 0, 0, 1, 2, 3, 4,
        5, 6, 7, 8, 0x00, 0x7b, 0x01, 0xc8, 0x00, 0x00, 0xab, 0xcd] : List Nat).drop 20) 4
      = 0 ∧
    extract_probe_resp_seq [0x45, 0, 0, 28, 0x12, 0x34, 0x40, 0, 64, 17, 0, 0, 1, 2, 3, 4,
        5, 6, 7, 8, 0x00, 0x7b, 0x01, 0xc8, 0x00, 0x00, 0xab, 0xcd] .udp =
      .ok (some (.udp ⟨4660, ⟨5, 6, 7, 8⟩, 123, 456, 43981, 65528, false⟩)) := by
  decide

/-- C10 amended: for every embedded IPv4/UDP original datagram accepted by
the UDP view (at least 8 bytes), the reported payload_len is the wrapping
16-bit subtraction of 8 from the embedded UDP length field; the length
field is not validated, so values below 8 reach the computation and the
subtraction underflows and wraps rather than never underflowing. -/
theorem extract_udp_packet_payload_len (emb : List Nat)
    (hplen : 8 ≤ (emb.drop 20).length) (hproto : ipv4_get_protocol emb = 17) :
    extract_probe_resp_seq emb .udp =
      .ok (some (.udp ⟨ipv4_get_identification emb, ipv4_get_destination emb,
        get16 (emb.drop 20) 0, get16 (emb.drop 20) 2, get16 (emb.drop 20) 6,
        (get16 (emb.drop 20) 4 + 65536 - 8) % 65536, false⟩)) := by
  have h1 : ¬ ((List.drop 20 emb).length < 8) := by omega
  unfold extract_probe_resp_seq
  rw [hproto]
  simp only [extract_udp_packet, udp_new_view, ipv4_payload, h1, if_false]

theorem extract_udp_packet_payload_len_witness :
    extract_probe_resp_seq [0x45, 0, 0, 0x54, 0x90, 0x69, 0, 0, 1, 17, 0x0b, 0xea,
        192, 168, 1, 21, 142, 250, 204, 142, 0x7c, 0x55, 0x81, 0x06, 0x00, 0x40,
        0xe4, 0xcb] .udp =
      .ok (some (.udp ⟨36969, ⟨142, 250, 204, 142⟩, 31829, 33030, 58571, 56, false⟩)) :=
  extract_udp_packet_payload_len [0x45, 0, 0, 0x54, 0x90, 0x69, 0, 0, 1, 17, 0x0b, 0xea,
    192, 168, 1, 21, 142, 250, 204, 142, 0x7c, 0x55, 0x81, 0x06, 0x00, 0x40, 0xe4, 0xcb]
    (by decide) (by decide)

/-- C1 counterexample: a datagram that fails to parse (a single byte,
shorter than the minimum IPv4 header) makes recv_icmp_probe return a hard
packet error, not Ok(None). -/
theorem recv_icmp_probe_malformed_counterexample :
    recv_icmp_probe (.bytes [0x45]) .udp .disabled = .error .packetError ∧
      recv_icmp_probe (.bytes [0x45]) .udp .disabled ≠ .ok none := by
  decide

/-- C1 amended: recv_icmp_probe returns Ok(None) when the socket read
returns WouldBlock and Err(IoError) for other socket I/O errors; but a
datagram that fails to parse yields a hard packet error rather than
Ok(None): a read shorter than the 20-byte IPv4 header, or whose remaining
ICMP payload is shorter than 8 bytes, returns Err(PacketError). -/
theorem recv_icmp_probe_read_outcomes (protocol : Protocol)
    (mode : IcmpExtensionParseMode) (kind : Nat) (b : List Nat) :
    recv_icmp_probe .wouldBlock protocol mode = .ok none ∧
      recv_icmp_probe (.err kind) protocol mode = .error (.ioError kind) ∧
      (b.length < 20 → recv_icmp_probe (.bytes b) protocol mode = .error .packetError) ∧
      (20 ≤ b.length → b.length < 28 →
        recv_icmp_probe (.bytes b) protocol mode = .error .packetError) := by
  refine ⟨rfl, rfl, ?_, ?_⟩
  · intro h
    simp only [recv_icmp_probe, ipv4_new_view, h, if_true]
  · intro hlo hhi
    have h1 : ¬ (b.length < 20) := by omega
    have h2 : (List.drop 20 b).length < 8 := by
      rw [List.length_drop]; omega
    simp only [recv_icmp_probe, ipv4_new_view, h1, if_false, extract_probe_resp,
      icmp_new_view, ipv4_payload, h2, if_true]

theorem recv_icmp_probe_read_outcomes_witness :
    recv_icmp_probe .wouldBlock .udp .disabled = .ok none ∧
      recv_icmp_probe (.err 5) .udp .disabled = .error (.ioError 5) ∧
      recv_icmp_probe (.bytes [7]) .udp .disabled = .error .packetError ∧
      recv_icmp_probe (.bytes (List.replicate 25 0)) .udp .disabled = .error .packetError := by
  obtain ⟨hwb, hio, hshort, -⟩ := recv_icmp_probe_read_outcomes .udp .disabled 5 [7]
  obtain ⟨-, -, -, hmid⟩ :=
    recv_icmp_probe_read_outcomes .udp .disabled 5 (List.replicate 25 0)
  exact ⟨hwb, hio, hshort (by decide), hmid (by decide) (by decide)⟩

/-- C3 counterexample: at the S1 inputs the dispatched bytes carry a zero
IPv4 header checksum field, and the header's Internet checksum does not
verify (the kernel fills that field in under IP_HDRINCL), refuting the
claim that both checksums verify on the bytes passed to send_to. -/
theorem dispatch_icmp_probe_header_checksum_counterexample :
    dispatch_icmp_probe ⟨33000, 1234, 0, 0, 10, false, false⟩ ⟨1, 2, 3, 4⟩ ⟨5, 6, 7, 8⟩
        28 0x00 .network =
      .ok ⟨[0x45, 0x00, 0x00, 0x1c, 0x00, 0x00, 0x40, 0x00, 0x0a, 0x01, 0x00, 0x00,
            0x01, 0x02, 0x03, 0x04, 0x05, 0x06, 0x07, 0x08,
            0x08, 0x00, 0x72, 0x45, 0x04, 0xd2, 0x80, 0xe8], ⟨5, 6, 7, 8⟩, 0⟩ ∧
      ¬ checksumValid [0x45, 0x00, 0x00, 0x1c, 0x00, 0x00, 0x40, 0x00, 0x0a, 0x01,
            0x00, 0x00, 0x01, 0x02, 0x03, 0x04, 0x05, 0x06, 0x07, 0x08] := by
  decide

set_option maxHeartbeats 1600000 in
set_option maxRecDepth 4000 in
/-- C3 amended: for all src, dest, identifier, sequence, ttl, packet_size
in [28, 1024] and pattern, the bytes dispatch_icmp_probe hands to send_to
decode as an IPv4 packet (version 4, IHL 5, adjusted total length,
protocol 1, the probe ttl, the given addresses) whose payload is an ICMP
EchoRequest carrying the given identifier, sequence, and payload pattern
at the requested length, and the ICMP checksum verifies; the IPv4 header
checksum field, however, is left zero for the kernel to fill in and does
not itself verify. -/
theorem dispatch_icmp_probe_roundtrip (probe : Probe) (src_addr dest_addr : Ipv4Addr)
    (packet_size payload_pattern : Nat) (bo : Ipv4ByteOrder)
    (hid : probe.identifier < 65536) (hseq : probe.sequence < 65536)
    (h1 : 28 ≤ packet_size) (h2 : packet_size ≤ 1024) :
    ∃ s, dispatch_icmp_probe probe src_addr dest_addr packet_size payload_pattern bo
        = .ok s ∧
      s.addr = dest_addr ∧
      s.port = 0 ∧
      s.bytes.length = packet_size ∧
      getByte s.bytes 0 = 0x45 ∧
      get16 s.bytes 2 = bo.adjust_length packet_size ∧
      getByte s.bytes 8 = probe.ttl ∧
      getByte s.bytes 9 = 1 ∧
      get16 s.bytes 10 = 0 ∧
      ipv4_get_source s.bytes = src_addr ∧
      ipv4_get_destination s.bytes = dest_addr ∧
      getByte (ipv4_payload s.bytes) 0 = 8 ∧
      getByte (ipv4_payload s.bytes) 1 = 0 ∧
      get16 (ipv4_payload s.bytes) 4 = probe.identifier ∧
      get16 (ipv4_payload s.bytes) 6 = probe.sequence ∧
      (ipv4_payload s.bytes).drop 8 = List.replicate (packet_size - 28) payload_pattern ∧
      checksumValid (ipv4_payload s.bytes) := by
  unfold dispatch_icmp_probe
  rw [if_pos ⟨h1, h2⟩]
  have hel : (make_echo_request_icmp_packet probe.identifier probe.sequence
      (icmp_payload_size packet_size) payload_pattern).length = packet_size - 20 := by
    simp [make_echo_request_icmp_packet, be16, icmp_payload_size]
    omega
  refine ⟨_, rfl, rfl, rfl, ?_, rfl, ?_, rfl, rfl, rfl, rfl, rfl, rfl, rfl, ?_, ?_, ?_, ?_⟩
  · show (make_ipv4_packet bo 1 src_addr dest_addr probe.ttl 0
        (make_echo_request_icmp_packet probe.identifier probe.sequence
          (icmp_payload_size packet_size) payload_pattern)).length = packet_size
    simp only [make_ipv4_packet, List.length_append, List.length_cons, addrBytes, be16,
      List.length_nil, hel]
    omega
  · show (bo.adjust_length (20 + (make_echo_request_icmp_packet probe.identifier
        probe.sequence (icmp_payload_size packet_size) payload_pattern).length)) / 256 % 256
        * 256 +
      (bo.adjust_length (20 + (make_echo_request_icmp_packet probe.identifier
        probe.sequence (icmp_payload_size packet_size) payload_pattern).length)) % 256
      = bo.adjust_length packet_size
    rw [hel, show 20 + (packet_size - 20) = packet_size from by omega]
    have hlt : bo.adjust_length packet_size < 65536 := by
      cases bo <;> simp only [Ipv4ByteOrder.adjust_length] <;> omega
    omega
  · show probe.identifier / 256 % 256 * 256 + probe.identifier % 256 = probe.identifier
    omega
  · show probe.sequence / 256 % 256 * 256 + probe.sequence % 256 = probe.sequence
    omega
  · show List.replicate (icmp_payload_size packet_size) payload_pattern
      = List.replicate (packet_size - 28) payload_pattern
    unfold icmp_payload_size
    congr 1
  · exact checksum_slot_valid [8, 0]
      (be16 probe.identifier ++ be16 probe.sequence ++
        List.replicate (icmp_payload_size packet_size) payload_pattern) (by rfl)

theorem dispatch_icmp_probe_roundtrip_witness :
    ∃ s, dispatch_icmp_probe ⟨33000, 1234, 0, 0, 10, false, false⟩ ⟨1, 2, 3, 4⟩
        ⟨5, 6, 7, 8⟩ 28 0x00 .network = .ok s ∧ checksumValid (ipv4_payload s.bytes) := by
  obtain ⟨s, hs, -, -, -, -, -, -, -, -, -, -, -, -, -, -, -, hv⟩ :=
    dispatch_icmp_probe_roundtrip ⟨33000, 1234, 0, 0, 10, false, false⟩ ⟨1, 2, 3, 4⟩
      ⟨5, 6, 7, 8⟩ 28 0x00 .network (by decide) (by decide) (by decide) (by decide)
  exact ⟨s, hs, hv⟩

set_option maxHeartbeats 1600000 in
set_option maxRecDepth 4000 in
/-- C2: with PARIS_CHECKSUM set, for every sequence, privileged UDP
dispatch emits a UDP datagram whose on-wire length field is 10 (8-byte
header plus the fixed 2-byte payload, whatever packet size and pattern
were requested), whose checksum field holds the sequence in big-endian,
and whose 2-byte payload holds the checksum originally computed for the
unswapped packet; the unswapped packet, recovered by swapping the checksum
field and payload back, has a valid UDP/IPv4 checksum. -/
theorem dispatch_udp_probe_paris_swap (probe : Probe) (src_addr dest_addr : Ipv4Addr)
    (packet_size payload_pattern : Nat) (bo : Ipv4ByteOrder)
    (hp : probe.paris_checksum = true) (hseq : probe.sequence < 65536)
    (h1 : 28 ≤ packet_size) (h2 : packet_size ≤ 1024) :
    ∃ s, dispatch_udp_probe probe src_addr dest_addr .privileged packet_size
        payload_pattern bo = .ok s ∧
      (ipv4_payload s.bytes).length = 10 ∧
      get16 (ipv4_payload s.bytes) 4 = 10 ∧
      (ipv4_payload s.bytes).take 6 = (make_udp_packet src_addr dest_addr probe.src_port probe.dest_port (be16 probe.sequence)).take 6 ∧
      get16 (ipv4_payload s.bytes) 6 = probe.sequence ∧
      (ipv4_payload s.bytes).drop 8 = be16 (get16 (make_udp_packet src_addr dest_addr probe.src_port probe.dest_port (be16 probe.sequence)) 6) ∧
      checksumValid (pseudoHeader src_addr dest_addr 10 ++ make_udp_packet src_addr dest_addr probe.src_port probe.dest_port (be16 probe.sequence)) := by
  have hU0 : make_udp_packet src_addr dest_addr probe.src_port probe.dest_port (be16 probe.sequence) =
      be16 probe.src_port ++ be16 probe.dest_port ++ be16 10 ++ be16 (udp_ipv4_checksum (be16 probe.src_port ++ be16 probe.dest_port ++ be16 10 ++ be16 0 ++ be16 probe.sequence) src_addr dest_addr) ++ be16 probe.sequence := rfl
  have hC_le : udp_ipv4_checksum (be16 probe.src_port ++ be16 probe.dest_port ++ be16 10 ++ be16 0 ++ be16 probe.sequence) src_addr dest_addr ≤ 65535 := Nat.sub_le _ _
  have hpw : get16 ((make_udp_packet src_addr dest_addr probe.src_port probe.dest_port (be16 probe.sequence)).drop 8) 0 = probe.sequence := by
    rw [hU0]
    show probe.sequence / 256 % 256 * 256 + probe.sequence % 256 = probe.sequence
    omega
  have hcs : get16 (make_udp_packet src_addr dest_addr probe.src_port probe.dest_port (be16 probe.sequence)) 6 = udp_ipv4_checksum (be16 probe.src_port ++ be16 probe.dest_port ++ be16 10 ++ be16 0 ++ be16 probe.sequence) src_addr dest_addr := by
    rw [hU0]
    show (udp_ipv4_checksum (be16 probe.src_port ++ be16 probe.dest_port ++ be16 10 ++ be16 0 ++ be16 probe.sequence) src_addr dest_addr) / 256 % 256 * 256 + (udp_ipv4_checksum (be16 probe.src_port ++ be16 probe.dest_port ++ be16 10 ++ be16 0 ++ be16 probe.sequence) src_addr dest_addr) % 256 = udp_ipv4_checksum (be16 probe.src_port ++ be16 probe.dest_port ++ be16 10 ++ be16 0 ++ be16 probe.sequence) src_addr dest_addr
    omega
  have hres : dispatch_udp_probe probe src_addr dest_addr .privileged packet_size
      payload_pattern bo =
      .ok ⟨make_ipv4_packet bo 17 src_addr dest_addr probe.ttl probe.identifier
        (udpSetPayload (set16 (make_udp_packet src_addr dest_addr probe.src_port probe.dest_port (be16 probe.sequence)) 6 (get16 ((make_udp_packet src_addr dest_addr probe.src_port probe.dest_port (be16 probe.sequence)).drop 8) 0))
          (be16 (get16 (make_udp_packet src_addr dest_addr probe.src_port probe.dest_port (be16 probe.sequence)) 6))),
        dest_addr, probe.dest_port⟩ := by
    unfold dispatch_udp_probe dispatch_udp_probe_raw
    rw [if_pos ⟨h1, h2⟩, hp]
    rfl
  rw [hpw, hcs, hU0] at hres
  have hc2 : (udpSetPayload (set16 (be16 probe.src_port ++ be16 probe.dest_port ++ be16 10 ++ be16 (udp_ipv4_checksum (be16 probe.src_port ++ be16 probe.dest_port ++ be16 10 ++ be16 0 ++ be16 probe.sequence) src_addr dest_addr) ++ be16 probe.sequence) 6 probe.sequence) (be16 (udp_ipv4_checksum (be16 probe.src_port ++ be16 probe.dest_port ++ be16 10 ++ be16 0 ++ be16 probe.sequence) src_addr dest_addr))).length = 10 := rfl
  have hc3 : get16 (udpSetPayload (set16 (be16 probe.src_port ++ be16 probe.dest_port ++ be16 10 ++ be16 (udp_ipv4_checksum (be16 probe.src_port ++ be16 probe.dest_port ++ be16 10 ++ be16 0 ++ be16 probe.sequence) src_addr dest_addr) ++ be16 probe.sequence) 6 probe.sequence) (be16 (udp_ipv4_checksum (be16 probe.src_port ++ be16 probe.dest_port ++ be16 10 ++ be16 0 ++ be16 probe.sequence) src_addr dest_addr))) 4 = 10 := rfl
  have hc4 : (udpSetPayload (set16 (be16 probe.src_port ++ be16 probe.dest_port ++ be16 10 ++ be16 (udp_ipv4_checksum (be16 probe.src_port ++ be16 probe.dest_port ++ be16 10 ++ be16 0 ++ be16 probe.sequence) src_addr dest_addr) ++ be16 probe.sequence) 6 probe.sequence) (be16 (udp_ipv4_checksum (be16 probe.src_port ++ be16 probe.dest_port ++ be16 10 ++ be16 0 ++ be16 probe.sequence) src_addr dest_addr))).take 6 = (make_udp_packet src_addr dest_addr probe.src_port probe.dest_port (be16 probe.sequence)).take 6 := by
    rw [hU0]
    rfl
  have hc5 : get16 (udpSetPayload (set16 (be16 probe.src_port ++ be16 probe.dest_port ++ be16 10 ++ be16 (udp_ipv4_checksum (be16 probe.src_port ++ be16 probe.dest_port ++ be16 10 ++ be16 0 ++ be16 probe.sequence) src_addr dest_addr) ++ be16 probe.sequence) 6 probe.sequence) (be16 (udp_ipv4_checksum (be16 probe.src_port ++ be16 probe.dest_port ++ be16 10 ++ be16 0 ++ be16 probe.sequence) src_addr dest_addr))) 6 = probe.sequence := by
    show probe.sequence / 256 % 256 * 256 + probe.sequence % 256 = probe.sequence
    omega
  have hc6 : (udpSetPayload (set16 (be16 probe.src_port ++ be16 probe.dest_port ++ be16 10 ++ be16 (udp_ipv4_checksum (be16 probe.src_port ++ be16 probe.dest_port ++ be16 10 ++ be16 0 ++ be16 probe.sequence) src_addr dest_addr) ++ be16 probe.sequence) 6 probe.sequence) (be16 (udp_ipv4_checksum (be16 probe.src_port ++ be16 probe.dest_port ++ be16 10 ++ be16 0 ++ be16 probe.sequence) src_addr dest_addr))).drop 8 = be16 (get16 (make_udp_packet src_addr dest_addr probe.src_port probe.dest_port (be16 probe.sequence)) 6) := by
    rw [hcs]
    rfl
  have hc7 : checksumValid (pseudoHeader src_addr dest_addr 10 ++ make_udp_packet src_addr dest_addr probe.src_port probe.dest_port (be16 probe.sequence)) := by
    rw [hU0]
    exact checksum_slot_valid
      (pseudoHeader src_addr dest_addr 10 ++ be16 probe.src_port ++
        be16 probe.dest_port ++ be16 10)
      (be16 probe.sequence) (by simp [pseudoHeader, addrBytes, be16])
  exact ⟨_, hres, hc2, hc3, hc4, hc5, hc6, hc7⟩

theorem dispatch_udp_probe_paris_swap_witness :
    ∃ s, dispatch_udp_probe ⟨33000, 1234, 123, 456, 10, true, false⟩ ⟨1, 2, 3, 4⟩
        ⟨5, 6, 7, 8⟩ .privileged 300 0xaa .network = .ok s ∧
      (ipv4_payload s.bytes).length = 10 ∧
      get16 (ipv4_payload s.bytes) 4 = 10 ∧
      get16 (ipv4_payload s.bytes) 6 = 33000 := by
  obtain ⟨s, hs, hlen, hfield, -, hseq, -, -⟩ :=
    dispatch_udp_probe_paris_swap ⟨33000, 1234, 123, 456, 10, true, false⟩ ⟨1, 2, 3, 4⟩
      ⟨5, 6, 7, 8⟩ 300 0xaa .network (by decide) (by decide) (by decide) (by decide)
  exact ⟨s, hs, hlen, hfield, hseq⟩
